import Mathlib

/-!
Verification of the robo-driver repository (src/main.py, src/config.py,
src/utils.py) against its natural-language specification.

The Python program drives a browser through playwright: it navigates to a
storefront, dismisses consent banners, opens the search box, submits a query,
resolves the first product card that contains a price, extracts a title and a
price, and returns a one-line message.  The browser itself is an external
collaborator; its behaviour at each interaction point is modelled here as
explicit data (a `Page` value describing the DOM the queries see, and
per-attempt outcomes for the operations that can fail).  Exceptions are
modelled as an inductive `Exc` mirroring the Python exception classes that the
program distinguishes; fallible code returns `Except Exc α`.
-/

/-- Python exceptions, by the classes the program distinguishes:
playwright `TimeoutError` (imported as `PWTimeout`), the program's own
`RecoverableError` (utils.py line 273), `RuntimeError`, and any other
`Exception`.  Every constructor is a subclass of Python `Exception`. -/
inductive Exc where
  | pwTimeout (msg : String)
  | recoverable (msg : String)
  | runtimeError (msg : String)
  | otherError (msg : String)
deriving DecidableEq

/-- `str(e)`: the message carried by the exception. -/
def excMsg : Exc → String
  | .pwTimeout m => m
  | .recoverable m => m
  | .runtimeError m => m
  | .otherError m => m

/-- The Python class of an exception, forgetting the message.  This is what a
caller can test programmatically (`isinstance` / `except` clauses). -/
inductive ExcKind where
  | pwTimeoutK
  | recoverableK
  | runtimeErrorK
  | otherK
deriving DecidableEq

def Exc.kind : Exc → ExcKind
  | .pwTimeout _ => .pwTimeoutK
  | .recoverable _ => .recoverableK
  | .runtimeError _ => .runtimeErrorK
  | .otherError _ => .otherK

/-- `isinstance(e, RecoverableError)`: the predicate used by
`retry_if_exception_type(RecoverableError)` in main.py lines 17-22. -/
def isRecoverableE : Exc → Bool
  | .recoverable _ => true
  | _ => false

/-- Classifier used only to STATE the specification's notion of a transient
timing/visibility/click issue (spec section 4.1): playwright timeouts are the
transient class, and the program's own `RecoverableError` marker counts as
already classified recoverable; every other exception class is the
specification's "Fatal" class.  The source has no such classifier; this
definition follows the spec's words so that claims about it can be stated. -/
def isTimingIssue : Exc → Bool
  | .pwTimeout _ => true
  | .recoverable _ => true
  | _ => false

/-! ## Retry policy (main.py lines 17-31, tenacity)

`retry_click = retry(reraise=True, stop=stop_after_attempt(3),
wait=wait_exponential(multiplier=0.5, min=0.5, max=4),
retry=retry_if_exception_type(RecoverableError))`

An action is modelled as a function from the attempt number (1-based) to that
attempt's outcome.  The result pairs the final outcome with the list of retry
events, one `(attempt number, delay)` pair per sleep between attempts.
Delays are in hundredths of a second so that they stay in `Nat`. -/

/-- tenacity `wait_exponential(multiplier=0.5, min=0.5, max=4)` after the
failure of the given attempt: `multiplier * 2 ^ attempt`, clamped between the
floor and the ceiling (values in hundredths of a second: 50, 400). -/
def tenacityDelay (attempt : Nat) : Nat :=
  max 50 (min 400 (50 * 2 ^ attempt))

/-- The tenacity attempt loop: run the action; on an exception matching the
retry predicate, sleep and try again while the stop condition
(`stop_after_attempt`) has not been reached; any other exception, and the
exception of the final attempt (`reraise=True`), are raised unchanged.
`rem` is the number of attempts still allowed. -/
def retryGo {α : Type} (action : Nat → Except Exc α) :
    Nat → Nat → Except Exc α × List (Nat × Nat)
  | attempt, 0 => (action attempt, [])
  | attempt, 1 => (action attempt, [])
  | attempt, rem + 2 =>
    match action attempt with
    | .ok v => (.ok v, [])
    | .error e =>
      if isRecoverableE e then
        let r := retryGo action (attempt + 1) (rem + 1)
        (r.1, (attempt, tenacityDelay attempt) :: r.2)
      else (.error e, [])

/-- `retry_click` applied to an action: at most 3 total attempts. -/
def retryClickRun {α : Type} (action : Nat → Except Exc α) :
    Except Exc α × List (Nat × Nat) :=
  retryGo action 1 3

/-- The body of `safe_click` (main.py lines 26-31): one attempt of
`wait_for(state="visible")` followed by `click`, with `except Exception as e:
raise RecoverableError(str(e))` — every exception the underlying operation
raises, of any class, is re-raised as `RecoverableError`. -/
def safe_click_body (op : Nat → Except Exc Unit) (attempt : Nat) :
    Except Exc Unit :=
  match op attempt with
  | .ok _ => .ok ()
  | .error e => .error (.recoverable (excMsg e))

/-- `safe_click` (main.py lines 25-31): the body above under `retry_click`.
`op` gives the outcome of the underlying wait+click on each attempt. -/
def safe_click (op : Nat → Except Exc Unit) :
    Except Exc Unit × List (Nat × Nat) :=
  retryClickRun (safe_click_body op)

/-! ## DOM model

A page is the ordered list (document order) of the elements the program's
locators can address; each element carries the attributes the program queries
(tag, data-testid, accessible role and name, placeholder, input type,
aria-label, visibility) plus its descendants as flat `SubNode` records carrying
the attributes the extraction sub-selectors query.  `locator(...)` calls
become filters over these lists, which preserves document order exactly as
`querySelectorAll` does. -/

/-- Does the second list start with the first? -/
def leadsWith : List Char → List Char → Bool
  | [], _ => true
  | _ :: _, [] => false
  | a :: as, b :: bs => a == b && leadsWith as bs

/-- Does the list contain the first list as a contiguous run? -/
def containsSeq (needle : List Char) : List Char → Bool
  | [] => leadsWith needle []
  | c :: rest => leadsWith needle (c :: rest) || containsSeq needle rest

/-- Case-insensitive substring test (Python `re.I` search, CSS `*=` with the
`i` flag, playwright non-exact text matching). -/
def containsIgnoreCase (hay needle : String) : Bool :=
  containsSeq (needle.data.map Char.toLower) (hay.data.map Char.toLower)

/-- Case-insensitive string equality (an anchored `re.I` match of an escaped
literal). -/
def lowerEq (a b : String) : Bool :=
  a.data.map Char.toLower == b.data.map Char.toLower

/-- Python `str.strip()` whitespace. -/
def isPySpace (c : Char) : Bool :=
  c == ' ' || c == '\t' || c == '\n' || c == '\r' || c == '\x0B' || c == '\x0C'

/-- Python `str.strip()`. -/
def strStrip (s : String) : String :=
  ⟨((s.data.dropWhile isPySpace).reverse.dropWhile isPySpace).reverse⟩

/-- A descendant node of a card, with the attributes the extraction
sub-selectors (main.py lines 137-167) look at.  `textResult` is what
`inner_text()` on the node returns, or the exception it raises. -/
structure SubNode where
  tag : String := ""
  testid : String := ""
  hasAriaLabel : Bool := false
  visible : Bool := false
  text : String := ""
  textResult : Except Exc String := .ok ""

/-- A page-level element with the attributes the page-level locators
(main.py lines 34-134) look at.  `inArticle` / `inLi` record whether the
element has an `article` / `li` ancestor (for the descendant-combinator
selectors), `subs` its descendants, and `click` the outcome of the underlying
wait+click on each attempt when `safe_click` targets this element. -/
structure Elem where
  tag : String := ""
  testid : String := ""
  role : String := ""
  accName : String := ""
  placeholder : String := ""
  inputType : String := ""
  ariaLabel : String := ""
  visible : Bool := false
  inArticle : Bool := false
  inLi : Bool := false
  subs : List SubNode := []
  click : Nat → Except Exc Unit := fun _ => .ok ()

/-- A page: its elements in document order. -/
structure Page where
  elems : List Elem := []

/-- `card.locator("[data-testid='product-price']")`: the product-price
descendants of an element. -/
def priceSubs (e : Elem) : List SubNode :=
  e.subs.filter (fun s => s.testid == "product-price")

/-- `count() > 0` for the product-price descendants. -/
def hasPrice (e : Elem) : Bool :=
  decide (0 < (priceSubs e).length)

/-! ## Banner dismissal (main.py lines 34-55, `_dismiss_banners`) -/

/-- The fixed label vocabulary (main.py lines 37-46). -/
def bannerLabels : List String :=
  ["Accept", "Accept All", "I Accept", "I Agree", "Got it", "Allow all",
   "OK", "Close"]

/-- `page.get_by_role("button", name=re.compile(rf"^{re.escape(txt)}$",
re.I))`: buttons whose accessible name equals the label up to ASCII case (the
pattern is the escaped literal anchored on both sides, compiled with
`re.I`). -/
def bannerButtons (page : Page) (label : String) : List Elem :=
  page.elems.filter
    (fun e => e.role == "button" && lowerEq e.accName label)

/-- The body of one iteration of `_dismiss_banners` (main.py lines 48-55):
probe for the label's button; if present, click the first via `safe_click`.
The surrounding `except Exception: pass` swallows any failure, so the
swallowed exception (if any) is returned as data rather than raised. -/
def dismissOne (page : Page) (label : String) : Option Exc :=
  match bannerButtons page label with
  | [] => none
  | b :: _ =>
    match (safe_click b.click).1 with
    | .ok _ => none
    | .error e => some e

/-- `_dismiss_banners` (main.py lines 34-55): every label of the vocabulary is
processed in order; the result records, per label, the exception that was
swallowed there (if any).  The function is total: no branch raises. -/
def _dismiss_banners (page : Page) : List (String × Option Exc) :=
  bannerLabels.map (fun l => (l, dismissOne page l))

/-! ## Search-input resolution (main.py lines 58-86, `_open_search`) -/

/-- The ordered strategy list of main.py lines 73-78. -/
inductive SearchSel where
  | bySearchboxRole
  | byPlaceholder
  | byInputTypeSearch
  | byAriaLabel
deriving DecidableEq

def searchSelectors : List SearchSel :=
  [.bySearchboxRole, .byPlaceholder, .byInputTypeSearch, .byAriaLabel]

/-- What each strategy's locator matches:
`page.get_by_role("searchbox")`, `page.get_by_placeholder(re.compile("search",
re.I))`, `page.locator("input[type=\x27search\x27]")`,
`page.locator("input[aria-label*=\x27Search\x27 i]")`. -/
def searchSelMatches : SearchSel → Elem → Bool
  | .bySearchboxRole, e => e.role == "searchbox"
  | .byPlaceholder, e => containsIgnoreCase e.placeholder "search"
  | .byInputTypeSearch, e => e.tag == "input" && e.inputType == "search"
  | .byAriaLabel, e => e.tag == "input" && containsIgnoreCase e.ariaLabel "search"

def searchNotFoundMsg : String := "Could not find Nike search input."

/-- The loop of main.py lines 79-86: for each strategy in order, if
`loc.count() > 0`, wait for the first match to become visible and return it;
a wait that times out (first match never visible) is caught by the
`except Exception: continue` and the next strategy is tried. -/
def openSearchLoop (page : Page) : List SearchSel → Except Exc Elem
  | [] => .error (.runtimeError searchNotFoundMsg)
  | s :: rest =>
    match page.elems.filter (searchSelMatches s) with
    | [] => openSearchLoop page rest
    | e :: _ => if e.visible then .ok e else openSearchLoop page rest

/-- `_open_search` (main.py lines 58-86).  The best-effort click on a search
button (lines 63-69) is wrapped in `except Exception: pass` and cannot change
the control flow; its effect on the DOM is part of the page state this
function receives (the orchestrator's `searchPage`).  The resolution loop is
the part with behaviour. -/
def _open_search (page : Page) : Except Exc Elem :=
  openSearchLoop page searchSelectors

/-- "Strategy s matches the page" for `_open_search`: the strategy's locator
has at least one match and its first match becomes visible within the
timeout — exactly the condition under which the loop returns there. -/
def searchHit (page : Page) (s : SearchSel) : Bool :=
  match page.elems.filter (searchSelMatches s) with
  | [] => false
  | e :: _ => e.visible

/-! ## Product-card resolution (main.py lines 95-134, `_first_product_card`) -/

/-- The ordered selector list of main.py lines 99-104. -/
inductive CardSel where
  | productCard
  | articleProductCard
  | liProductCard
  | genericScan
deriving DecidableEq

def cardSelectors : List CardSel :=
  [.productCard, .articleProductCard, .liProductCard, .genericScan]

/-- What each selector matches: `[data-testid='product-card']`, the same under
an `article` / `li` ancestor (descendant combinator), and the last-resort scan
`article, li, div`. -/
def cardSelMatches : CardSel → Elem → Bool
  | .productCard, e => e.testid == "product-card"
  | .articleProductCard, e => e.testid == "product-card" && e.inArticle
  | .liProductCard, e => e.testid == "product-card" && e.inLi
  | .genericScan, e => e.tag == "article" || e.tag == "li" || e.tag == "div"

/-- `page.locator(sel)`: the matches of a selector, in document order. -/
def locate (page : Page) (s : CardSel) : List Elem :=
  page.elems.filter (cardSelMatches s)

def cardNotFoundMsg : String :=
  "Could not find a product card with a visible price (Nike)."

/-- The scan loop body (main.py lines 116-121 and 128-132): inspect nodes one
by one, returning the first with a product-price descendant; the second
component counts the nodes inspected (`nth(i)` probes). -/
def scanLoop : List Elem → Nat → Option Elem × Nat
  | [], k => (none, k)
  | e :: rest, k =>
    if hasPrice e then (some e, k + 1) else scanLoop rest (k + 1)

/-- One capped scan: `limit = min(count, 24)` nodes inspected at most.  (When
the node list is empty the source skips the scan; scanning the empty list
inspects zero nodes, the same behaviour.) -/
def scanCapped (nodes : List Elem) : Option Elem × Nat :=
  scanLoop (nodes.take 24) 0

/-- "Selector s matches the page" for `_first_product_card`: some node among
the first 24 matches of s has a product-price descendant — exactly the
condition under which the scan of s returns a node. -/
def selHasHit (page : Page) (s : CardSel) : Bool :=
  ((locate page s).take 24).any hasPrice

/-- The fallback loop (main.py lines 124-132): each selector in order, its
matches scanned up to the cap; probes accumulate across selectors. -/
def fpcFallback (page : Page) : List CardSel → Option Elem × Nat
  | [] => (none, 0)
  | s :: rest =>
    match scanCapped (locate page s) with
    | (some e, k) => (some e, k)
    | (none, k) =>
      let r := fpcFallback page rest
      (r.1, k + r.2)

/-- `_first_product_card` (main.py lines 95-134), instrumented with the total
number of candidate nodes inspected: the fast path scans the
`[data-testid='product-card']` matches, then the fallback loop runs the four
selectors; if nothing is found a `RuntimeError` is raised.  The
`wait_for_selector` preamble (lines 107-111) only waits and swallows its own
timeout; it inspects no candidate node and cannot change the result. -/
def firstProductCardT (page : Page) : Except Exc Elem × Nat :=
  match scanCapped (locate page .productCard) with
  | (some c, k) => (.ok c, k)
  | (none, k) =>
    match fpcFallback page cardSelectors with
    | (some e, k2) => (.ok e, k + k2)
    | (none, k2) => (.error (.runtimeError cardNotFoundMsg), k + k2)

/-- `_first_product_card`, result only. -/
def _first_product_card (page : Page) : Except Exc Elem :=
  (firstProductCardT page).1

/-! ## Extraction (main.py lines 137-167, `_extract_title_and_price`) -/

/-- The ordered title sub-selector list of main.py lines 139-144. -/
inductive TitleSel where
  | byTestid
  | byAnchorAria
  | byHeading
  | byAnchor
deriving DecidableEq

def titleCandidates : List TitleSel :=
  [.byTestid, .byAnchorAria, .byHeading, .byAnchor]

/-- What each title sub-selector matches:
`[data-testid='product-card__title']`, `a[aria-label]:visible`,
`h3:visible, h2:visible, h1:visible`, `a:visible`. -/
def titleSelMatches : TitleSel → SubNode → Bool
  | .byTestid, s => s.testid == "product-card__title"
  | .byAnchorAria, s => s.tag == "a" && s.hasAriaLabel && s.visible
  | .byHeading, s => (s.tag == "h3" || s.tag == "h2" || s.tag == "h1") && s.visible
  | .byAnchor, s => s.tag == "a" && s.visible

/-- The title loop (main.py lines 145-155): first sub-selector whose first
match yields non-empty trimmed text wins; an `inner_text` exception or empty
text falls through to the next candidate. -/
def titleLoop (card : Elem) : List TitleSel → Option String
  | [] => none
  | t :: rest =>
    match card.subs.filter (titleSelMatches t) with
    | [] => titleLoop card rest
    | s0 :: _ =>
      match s0.textResult with
      | .error _ => titleLoop card rest
      | .ok raw =>
        if strStrip raw == "" then titleLoop card rest else some (strStrip raw)

def unknownTitle : String := "(unknown title)"

def priceInBag : String := "Price in Bag"

def priceNotFoundMsg : String :=
  "Found a product card but no [data-testid=\x27product-price\x27]."

/-- `card.get_by_text("Price in Bag", exact=False)` has a match: some
descendant whose text contains the marker (case-insensitive, playwright
non-exact matching). -/
def bagPresent (card : Elem) : Bool :=
  card.subs.any (fun s => containsIgnoreCase s.text priceInBag)

/-- `_extract_title_and_price` (main.py lines 137-167): the title loop with
the `(unknown title)` sentinel (`title_text or "(unknown title)"`), then the
price: the preferred testid if present (its `inner_text` exception, if any,
propagates), else the "Price in Bag" literal if the marker is present, else a
`RuntimeError`. -/
def _extract_title_and_price (card : Elem) : Except Exc (String × String) :=
  let title := (titleLoop card titleCandidates).getD unknownTitle
  match priceSubs card with
  | [] =>
    if bagPresent card then .ok (title, priceInBag)
    else .error (.runtimeError priceNotFoundMsg)
  | p :: _ =>
    match p.textResult with
    | .error e => .error e
    | .ok s => .ok (title, strStrip s)

/-! ## Run orchestrator (main.py lines 170-221, `run`)

The environment-dependent steps of the pipeline are the data of a `World`:
the outcome of `page.goto`, the page states at the points where the DOM is
queried, and the outcomes of `fill`, `press` and the three waits.  Browser
launch and context creation (lines 171-187) precede the `try` block and are
not part of any claimed exit path; the embedding covers the `try` body, its
two `except` handlers and the `finally` block. -/

structure World where
  gotoResult : Except Exc Unit := .ok ()
  bannersPage : Page := {}
  searchPage : Page := {}
  fillResult : Except Exc Unit := .ok ()
  pressResult : Except Exc Unit := .ok ()
  waitLoadResult : Except Exc Unit := .ok ()
  waitCardResult : Except Exc Unit := .ok ()
  waitPriceResult : Except Exc Unit := .ok ()
  resultsPage : Page := {}

/-- The success line (main.py line 207), with the append grouped so that the
fixed prefix stands first. -/
def successMsg (query title price : String) : String :=
  "Success! First result for \"" ++
    (query ++ ("\" is \"" ++ (title ++ ("\" priced at " ++ price))))

/-- The `try` body of `run` (main.py lines 189-209): navigate, dismiss
banners (total, cannot raise), resolve the search input, fill and submit,
wait for results, resolve the first card, extract, format.  The first
exception of any step aborts the body. -/
def runBody (w : World) (query : String) : Except Exc String :=
  match w.gotoResult with
  | .error e => .error e
  | .ok _ =>
    let _banners := _dismiss_banners w.bannersPage
    match _open_search w.searchPage with
    | .error e => .error e
    | .ok _input =>
      match w.fillResult with
      | .error e => .error e
      | .ok _ =>
        match w.pressResult with
        | .error e => .error e
        | .ok _ =>
          match w.waitLoadResult with
          | .error e => .error e
          | .ok _ =>
            match w.waitCardResult with
            | .error e => .error e
            | .ok _ =>
              match w.waitPriceResult with
              | .error e => .error e
              | .ok _ =>
                match _first_product_card w.resultsPage with
                | .error e => .error e
                | .ok card =>
                  match _extract_title_and_price card with
                  | .error e => .error e
                  | .ok (title, price) => .ok (successMsg query title price)

/-- Observable events of a run: the printed line and the two releases the
`finally` block performs. -/
inductive Ev where
  | printed (msg : String)
  | contextClose
  | browserClose
deriving DecidableEq

def timeoutPrefix : String := "Timeout while interacting with Nike: "

def runFailedPrefix : String := "Run failed: "

/-- `run` (main.py lines 170-221): the `try` body, the `except PWTimeout`
handler, the catch-all `except Exception` handler, and on every one of the
three exit paths the `finally` block closing the context and the browser
before the function returns.  Returns the returned string and the event
trace. -/
def run (w : World) (query : String) : String × List Ev :=
  match runBody w query with
  | .ok msg => (msg, [.printed msg, .contextClose, .browserClose])
  | .error (.pwTimeout m) =>
    let msg := timeoutPrefix ++ m
    (msg, [.printed msg, .contextClose, .browserClose])
  | .error e =>
    let msg := runFailedPrefix ++ excMsg e
    (msg, [.printed msg, .contextClose, .browserClose])

/-! ## Concrete fixtures -/

/-- A visible search box (matches the first search strategy). -/
def searchBoxElem : Elem :=
  { tag := "input", role := "searchbox", visible := true }

/-- Title descendant of the fixture card. -/
def fixtureTitleSub : SubNode :=
  { tag := "div", testid := "product-card__title",
    textResult := .ok "Sauce Labs Backpack" }

/-- Price descendant of the fixture card. -/
def fixturePriceSub : SubNode :=
  { tag := "div", testid := "product-price", textResult := .ok "$29.99" }

/-- A product card with one title and one price descendant. -/
def fixtureCard : Elem :=
  { tag := "div", testid := "product-card",
    subs := [fixtureTitleSub, fixturePriceSub] }

/-- A world whose every step succeeds: the search page holds a visible search
box and the results page holds exactly the fixture card. -/
def fixtureWorld : World :=
  { searchPage := { elems := [searchBoxElem] },
    resultsPage := { elems := [fixtureCard] } }

/-- A product-card element with no price descendant, matching every card
selector (testid, under an article, under an li, and a div for the generic
scan). -/
def capCardElem : Elem :=
  { tag := "div", testid := "product-card", inArticle := true, inLi := true }

/-- 25 price-less cards: every selector has more matches than the scan cap
and none of them has a price descendant. -/
def capPage : Page :=
  { elems := List.replicate 25 capCardElem }

/-- The empty page. -/
def emptyPage : Page := {}

/-- Search page of the end-to-end fixture: a single visible search box. -/
def fixtureSearchPage : Page := { elems := [searchBoxElem] }

/-- Results page of the end-to-end fixture: just the fixture card. -/
def fixtureResultsPage : Page := { elems := [fixtureCard] }

def notAttachedMsg : String := "Element is not attached to the DOM"

/-- An underlying wait+click whose first attempt raises a non-timing
(Fatal-class, in the spec's taxonomy) error and whose later attempts
succeed. -/
def fatalOp : Nat → Except Exc Unit :=
  fun n => if n == 1 then .error (.otherError notAttachedMsg) else .ok ()

/-- An action failing recoverably on attempts 1 and 2 and succeeding on 3. -/
def flakyTwice : Nat → Except Exc Nat :=
  fun n => if n ≤ 2 then .error (.recoverable "flaky") else .ok 9

/-- An action failing recoverably on every attempt. -/
def alwaysFails : Nat → Except Exc Nat :=
  fun _ => .error (.recoverable "down")

/-- A descendant carrying the price-in-bag marker text, with no price
element. -/
def bagTextSub : SubNode := { tag := "div", text := "See Price in Bag" }

/-- A card with a real title and the bag marker but no price element. -/
def bagCard : Elem :=
  { tag := "div", testid := "product-card",
    subs := [fixtureTitleSub, bagTextSub] }

/-- A banner button whose accessible name differs from the vocabulary label
only in case and whose click always fails. -/
def stubbornBanner : Elem :=
  { tag := "button", role := "button", accName := "accept all",
    click := fun _ => .error (.pwTimeout "click timeout") }

/-- A page holding only the stubborn banner. -/
def bannerPage : Page := { elems := [stubbornBanner] }

/-- A world whose press of the Enter key fails with a non-timeout, non-timing
interaction error (the spec's Fatal family). -/
def wFatal : World :=
  { searchPage := fixtureSearchPage,
    pressResult := .error (.otherError notAttachedMsg) }

/-- A world whose results page has no product card at all (the semantic
not-found family). -/
def wNoCard : World :=
  { searchPage := fixtureSearchPage, resultsPage := emptyPage }

/-- A world whose navigation times out (the timeout family). -/
def wNavTimeout : World :=
  { gotoResult := .error (.pwTimeout "nav timeout") }

/-! ## Lemmas about the scan loops -/

theorem scanLoop_of_not_any (l : List Elem) :
    ∀ k, l.any hasPrice = false → scanLoop l k = (none, k + l.length) := by
  induction l with
  | nil => intro k _; simp [scanLoop]
  | cons e rest ih =>
    intro k h
    simp only [List.any_cons, Bool.or_eq_false_iff] at h
    simp only [scanLoop, h.1, Bool.false_eq_true, if_false, ih (k + 1) h.2,
      List.length_cons, Prod.mk.injEq, true_and]
    omega

theorem scanLoop_probes (l : List Elem) :
    ∀ k, (scanLoop l k).2 ≤ k + l.length := by
  induction l with
  | nil => intro k; simp [scanLoop]
  | cons e rest ih =>
    intro k
    by_cases h : hasPrice e
    · simp [scanLoop, h]
    · simp only [scanLoop, h, Bool.false_eq_true, if_false, List.length_cons]
      calc (scanLoop rest (k + 1)).2 ≤ (k + 1) + rest.length := ih (k + 1)
        _ = k + (rest.length + 1) := by omega

theorem scanLoop_of_any (l : List Elem) :
    ∀ k, l.any hasPrice = true → ∃ e, (scanLoop l k).1 = some e := by
  induction l with
  | nil => intro k h; simp at h
  | cons e rest ih =>
    intro k h
    by_cases he : hasPrice e
    · exact ⟨e, by simp [scanLoop, he]⟩
    · simp only [List.any_cons, he, Bool.false_or] at h
      obtain ⟨x, hx⟩ := ih (k + 1) h
      exact ⟨x, by simpa [scanLoop, he] using hx⟩

theorem scanCapped_of_not_hit (nodes : List Elem)
    (h : (nodes.take 24).any hasPrice = false) :
    (scanCapped nodes).1 = none ∧ (scanCapped nodes).2 ≤ 24 := by
  constructor
  · simp [scanCapped, scanLoop_of_not_any _ 0 h]
  · calc (scanCapped nodes).2 ≤ 0 + (nodes.take 24).length :=
        scanLoop_probes _ 0
      _ ≤ 24 := by simp [List.length_take]

theorem selHasHit_scanCapped (page : Page) (s : CardSel)
    (h : selHasHit page s = true) :
    ∃ e, (scanCapped (locate page s)).1 = some e :=
  scanLoop_of_any ((locate page s).take 24) 0 h

theorem fpcFallback_of_no_hit (page : Page) (sels : List CardSel)
    (h : ∀ s ∈ sels, selHasHit page s = false) :
    (fpcFallback page sels).1 = none ∧
      (fpcFallback page sels).2 ≤ 24 * sels.length := by
  induction sels with
  | nil => simp [fpcFallback]
  | cons s rest ih =>
    have hs := h s (List.mem_cons_self s rest)
    have hrest := ih (fun x hx => h x (List.mem_cons_of_mem s hx))
    have hcap := scanCapped_of_not_hit (locate page s) hs
    rcases hsc : scanCapped (locate page s) with ⟨r, k⟩
    rw [hsc] at hcap
    have h1 : r = none := hcap.1
    have h2 : k ≤ 24 := hcap.2
    subst h1
    simp only [fpcFallback, hsc, List.length_cons, Prod.mk.injEq]
    exact ⟨hrest.1, by have := hrest.2; omega⟩

theorem fpcFallback_first (page : Page) (s : CardSel) (post : List CardSel)
    (e : Elem) (he : (scanCapped (locate page s)).1 = some e) :
    ∀ pre : List CardSel, (∀ x ∈ pre, selHasHit page x = false) →
      (fpcFallback page (pre ++ s :: post)).1 = some e := by
  intro pre
  induction pre with
  | nil =>
    intro _
    rcases hsc : scanCapped (locate page s) with ⟨r, k⟩
    rw [hsc] at he
    have h1 : r = some e := he
    subst h1
    simp [fpcFallback, hsc]
  | cons x xs ih =>
    intro hpre
    have hx := hpre x (List.mem_cons_self x xs)
    have hcap := scanCapped_of_not_hit (locate page x) hx
    rcases hsc : scanCapped (locate page x) with ⟨r, k⟩
    rw [hsc] at hcap
    have h1 : r = none := hcap.1
    subst h1
    have htail := ih (fun y hy => hpre y (List.mem_cons_of_mem x hy))
    simp [fpcFallback, hsc, htail]

theorem openSearchLoop_first (page : Page) (s : SearchSel)
    (post : List SearchSel) (hs : searchHit page s = true) :
    ∀ pre : List SearchSel, (∀ x ∈ pre, searchHit page x = false) →
      ∃ e rest, page.elems.filter (searchSelMatches s) = e :: rest ∧
        openSearchLoop page (pre ++ s :: post) = .ok e := by
  intro pre
  induction pre with
  | nil =>
    intro _
    unfold searchHit at hs
    rcases hf : page.elems.filter (searchSelMatches s) with _ | ⟨e, rest⟩
    · rw [hf] at hs; simp at hs
    · rw [hf] at hs
      have hv : e.visible = true := hs
      exact ⟨e, rest, rfl, by simp [openSearchLoop, hf, hv]⟩
  | cons x xs ih =>
    intro hpre
    have hx := hpre x (List.mem_cons_self x xs)
    obtain ⟨e, rest, h1, h2⟩ := ih (fun y hy => hpre y (List.mem_cons_of_mem x hy))
    refine ⟨e, rest, h1, ?_⟩
    unfold searchHit at hx
    rcases hg : page.elems.filter (searchSelMatches x) with _ | ⟨y, ys⟩
    · simpa [openSearchLoop, hg] using h2
    · rw [hg] at hx
      have hv : y.visible = false := hx
      simpa [openSearchLoop, hg, hv] using h2

/-- C3: for every element-resolution call with an ordered strategy list in
which at least one strategy matches the page, the resolver returns a handle
produced by the first matching strategy in the list's order, never a later
one, even when a later strategy would also match.  Stated for both resolvers:
`_first_product_card` over its selector list (a strategy matches when one of
its first 24 nodes has a price descendant, and the returned element is that
strategy's own first hit) and `_open_search` over its locator list (a
strategy matches when it has matches and the first is visible, and the
returned element is that strategy's first match). -/
theorem C3_first_strategy_wins :
    (∀ (page : Page) (pre : List CardSel) (s : CardSel) (post : List CardSel),
      cardSelectors = pre ++ s :: post →
      (∀ x ∈ pre, selHasHit page x = false) →
      selHasHit page s = true →
      ∃ e, (scanCapped (locate page s)).1 = some e ∧
        _first_product_card page = .ok e)
  ∧ (∀ (page : Page) (pre : List SearchSel) (s : SearchSel)
      (post : List SearchSel),
      searchSelectors = pre ++ s :: post →
      (∀ x ∈ pre, searchHit page x = false) →
      searchHit page s = true →
      ∃ e rest, page.elems.filter (searchSelMatches s) = e :: rest ∧
        _open_search page = .ok e) := by
  constructor
  · intro page pre s post heq hpre hs
    obtain ⟨e, he⟩ := selHasHit_scanCapped page s hs
    refine ⟨e, he, ?_⟩
    have heq' : [CardSel.productCard, .articleProductCard, .liProductCard,
        .genericScan] = pre ++ s :: post := by simpa [cardSelectors] using heq
    cases pre with
    | nil =>
      simp only [List.nil_append] at heq'
      injection heq' with h1 _h2
      rcases hsc : scanCapped (locate page s) with ⟨r, k⟩
      rw [hsc] at he
      have hr : r = some e := he
      subst hr
      rw [← h1] at hsc
      simp [_first_product_card, firstProductCardT, hsc]
    | cons c pre' =>
      simp only [List.cons_append] at heq'
      injection heq' with h1 _h2
      have hc : selHasHit page CardSel.productCard = false := by
        rw [h1]; exact hpre c (List.mem_cons_self c pre')
      have hfast := scanCapped_of_not_hit (locate page .productCard) hc
      rcases hsc : scanCapped (locate page .productCard) with ⟨r, k⟩
      rw [hsc] at hfast
      have hr : r = none := hfast.1
      subst hr
      have hfall :
          (fpcFallback page ((c :: pre') ++ s :: post)).1 = some e :=
        fpcFallback_first page s post e he (c :: pre') hpre
      rw [← heq] at hfall
      rcases hsc2 : fpcFallback page cardSelectors with ⟨r2, k2⟩
      rw [hsc2] at hfall
      have hr2 : r2 = some e := hfall
      subst hr2
      simp [_first_product_card, firstProductCardT, hsc, hsc2]
  · intro page pre s post heq hpre hs
    obtain ⟨e, rest, h1, h2⟩ := openSearchLoop_first page s post hs pre hpre
    exact ⟨e, rest, h1, by rw [_open_search, heq]; exact h2⟩

/-- Witness for C3: on the fixture pages the first strategy of each list
matches, and each resolver returns its hit. -/
theorem C3_witness :
    (∃ e, (scanCapped (locate fixtureResultsPage CardSel.productCard)).1 =
        some e ∧ _first_product_card fixtureResultsPage = .ok e)
  ∧ (∃ e rest,
      fixtureSearchPage.elems.filter (searchSelMatches .bySearchboxRole) =
        e :: rest ∧ _open_search fixtureSearchPage = .ok e) :=
  ⟨C3_first_strategy_wins.1 fixtureResultsPage [] .productCard
      [.articleProductCard, .liProductCard, .genericScan] rfl (by simp) rfl,
   C3_first_strategy_wins.2 fixtureSearchPage [] .bySearchboxRole
      [.byPlaceholder, .byInputTypeSearch, .byAriaLabel] rfl (by simp) rfl⟩

/-- C6 counterexample: on `capPage` no strategy matches (no node anywhere has
a price descendant), yet the resolver inspects 120 candidate nodes — the
24-node cap bounds each strategy's scan, not the total across the fallback —
and the failure it raises is a plain `RuntimeError`, the same exception class
(`Exc.kind`) as the unrelated search-input failure, not a distinct
`ElementNotFound` kind. -/
theorem C6_counterexample :
    (cardSelectors.all (fun s => !selHasHit capPage s)) = true
  ∧ (firstProductCardT capPage).2 = 120
  ∧ ¬ ((firstProductCardT capPage).2 ≤ 24)
  ∧ _first_product_card capPage = .error (.runtimeError cardNotFoundMsg)
  ∧ _open_search emptyPage = .error (.runtimeError searchNotFoundMsg)
  ∧ Exc.kind (.runtimeError cardNotFoundMsg) =
      Exc.kind (.runtimeError searchNotFoundMsg) :=
  ⟨rfl, rfl, by decide, rfl, rfl, rfl⟩

/-- C6 (amended): for every strategy list in which no strategy matches the
page, `_first_product_card` fails by raising a `RuntimeError` (caught by the
orchestrator's catch-all handler; there is no programmatically distinct
`ElementNotFound` kind), and the 24-node scan cap applies to each strategy's
scan, so the total number of candidate nodes inspected is bounded by
24 * 5 = 120 (the fast path plus the four fallback selectors). -/
theorem C6_no_hit_bounded (page : Page)
    (h : ∀ s ∈ cardSelectors, selHasHit page s = false) :
    _first_product_card page = .error (.runtimeError cardNotFoundMsg) ∧
      (firstProductCardT page).2 ≤ 120 := by
  have hc : selHasHit page CardSel.productCard = false :=
    h .productCard (by simp [cardSelectors])
  have hfast := scanCapped_of_not_hit (locate page .productCard) hc
  rcases hsc : scanCapped (locate page .productCard) with ⟨r, k⟩
  rw [hsc] at hfast
  have hr : r = none := hfast.1
  subst hr
  have hfall := fpcFallback_of_no_hit page cardSelectors h
  rcases hsc2 : fpcFallback page cardSelectors with ⟨r2, k2⟩
  rw [hsc2] at hfall
  have hr2 : r2 = none := hfall.1
  subst hr2
  have hk : k ≤ 24 := hfast.2
  have hk2 : k2 ≤ 24 * cardSelectors.length := hfall.2
  constructor
  · simp [_first_product_card, firstProductCardT, hsc, hsc2]
  · simp only [firstProductCardT, hsc, hsc2]
    simp only [cardSelectors, List.length_cons, List.length_nil] at hk2
    omega

/-- Witness for C6: the bound applied to `capPage`, where it is attained. -/
theorem C6_witness :
    _first_product_card capPage = .error (.runtimeError cardNotFoundMsg) ∧
      (firstProductCardT capPage).2 ≤ 120 :=
  C6_no_hit_bounded capPage (by decide)

/-- C2 counterexample: under `safe_click`, a first-occurrence error that is
NOT a transient timing/visibility/click issue does not propagate immediately:
`safe_click` wraps it into `RecoverableError`, retries after a recorded
delay, and here even succeeds on the second attempt. -/
theorem C2_counterexample :
    isTimingIssue (.otherError notAttachedMsg) = false
  ∧ fatalOp 1 = .error (.otherError notAttachedMsg)
  ∧ safe_click fatalOp = (.ok (), [(1, tenacityDelay 1)])
  ∧ ¬ (safe_click fatalOp).2 = [] :=
  ⟨rfl, rfl, rfl, by simp [safe_click, retryClickRun, retryGo, fatalOp,
    safe_click_body, isRecoverableE]⟩

/-- C2 (amended): under `retry_click` itself, an exception that is not a
`RecoverableError` propagates to the caller unchanged on its first
occurrence, with no retry and no delay; but `safe_click` re-raises every
exception of its body — timing-related or not — as `RecoverableError`, so
every failure of the underlying wait+click is classified recoverable and is
subject to retry; no exception class is treated as fatal by `safe_click`'s
own classification. -/
theorem C2_fatal_propagation (action : Nat → Except Exc Unit) (e : Exc)
    (h : action 1 = .error e) :
    (isRecoverableE e = false → retryClickRun action = (.error e, []))
  ∧ safe_click_body action 1 = .error (.recoverable (excMsg e)) := by
  constructor
  · intro hrec
    simp [retryClickRun, retryGo, h, hrec]
  · simp [safe_click_body, h]

/-- Witness for C2: the non-recoverable first failure of `fatalOp` propagates
unchanged under bare `retry_click`, and `safe_click`'s body wraps it. -/
theorem C2_witness :
    retryClickRun fatalOp = (.error (.otherError notAttachedMsg), [])
  ∧ safe_click_body fatalOp 1 =
      .error (.recoverable (excMsg (.otherError notAttachedMsg))) :=
  ⟨(C2_fatal_propagation fatalOp (.otherError notAttachedMsg) rfl).1 rfl,
   (C2_fatal_propagation fatalOp (.otherError notAttachedMsg) rfl).2⟩

/-- C4: an action raising `RecoverableError` exactly twice then succeeding
returns the success value with exactly 2 retry events (attempt number and
delay each); an action raising `RecoverableError` on every attempt makes
exactly 3 total attempts (2 sleeps) and re-raises the attempt-3 error
unchanged, with no wrapping. -/
theorem C4_retry_behaviour {α : Type} (a b : Nat → Except Exc α) (v : α)
    (m1 m2 n1 n2 n3 : String)
    (ha1 : a 1 = .error (.recoverable m1))
    (ha2 : a 2 = .error (.recoverable m2))
    (ha3 : a 3 = .ok v)
    (hb1 : b 1 = .error (.recoverable n1))
    (hb2 : b 2 = .error (.recoverable n2))
    (hb3 : b 3 = .error (.recoverable n3)) :
    retryClickRun a = (.ok v, [(1, tenacityDelay 1), (2, tenacityDelay 2)])
  ∧ retryClickRun b =
      (.error (.recoverable n3),
       [(1, tenacityDelay 1), (2, tenacityDelay 2)]) := by
  constructor
  · simp [retryClickRun, retryGo, ha1, ha2, ha3, isRecoverableE]
  · simp [retryClickRun, retryGo, hb1, hb2, hb3, isRecoverableE]

/-- Witness for C4 at the two concrete actions. -/
theorem C4_witness :
    retryClickRun flakyTwice =
      (.ok 9, [(1, tenacityDelay 1), (2, tenacityDelay 2)])
  ∧ retryClickRun alwaysFails =
      (.error (.recoverable "down"),
       [(1, tenacityDelay 1), (2, tenacityDelay 2)]) :=
  C4_retry_behaviour flakyTwice alwaysFails 9 "flaky" "flaky" "down" "down"
    "down" rfl rfl rfl rfl rfl rfl

theorem titleLoop_some_ne (card : Elem) (cands : List TitleSel) :
    ∀ t, titleLoop card cands = some t → t ≠ "" := by
  induction cands with
  | nil => intro t h; simp [titleLoop] at h
  | cons c rest ih =>
    intro t h
    simp only [titleLoop] at h
    split at h
    · exact ih t h
    · split at h
      · exact ih t h
      · split at h
        · exact ih t h
        · rename_i hz
          injection h with h
          subst h
          simpa using hz

/-- C5: for every container, a found title (first sub-selector yielding
non-empty trimmed text) is returned as that non-empty trimmed text, otherwise
the literal "(unknown title)" sentinel is substituted and extraction still
succeeds; when no price sub-selector matches but the fallback marker is
present the fallback literal is returned as the price; when neither a price
element nor the marker is present extraction fails with the price-not-found
`RuntimeError`.  Title absence is never fatal; price absence without fallback
always is. -/
theorem C5_extraction (card : Elem) :
    (∀ t, titleLoop card titleCandidates = some t → t ≠ "")
  ∧ (∀ p rest pr, priceSubs card = p :: rest → p.textResult = .ok pr →
      _extract_title_and_price card =
        .ok ((titleLoop card titleCandidates).getD unknownTitle, strStrip pr))
  ∧ (priceSubs card = [] → bagPresent card = true →
      _extract_title_and_price card =
        .ok ((titleLoop card titleCandidates).getD unknownTitle, priceInBag))
  ∧ (priceSubs card = [] → bagPresent card = false →
      _extract_title_and_price card = .error (.runtimeError priceNotFoundMsg)) := by
  refine ⟨titleLoop_some_ne card titleCandidates, ?_, ?_, ?_⟩
  · intro p rest pr hp htr
    simp only [_extract_title_and_price, hp, htr]
  · intro hp hbag
    simp only [_extract_title_and_price, hp, hbag, if_true]
  · intro hp hbag
    simp only [_extract_title_and_price, hp, hbag, Bool.false_eq_true,
      if_false]

/-- Witness for C5: on `bagCard` the fallback literal is returned as the
price together with the real title. -/
theorem C5_witness :
    _extract_title_and_price bagCard =
      .ok ("Sauce Labs Backpack", priceInBag) :=
  (C5_extraction bagCard).2.2.1 rfl rfl

/-- C8: banner dismissal never aborts: for every page state all eight labels
of the vocabulary are processed in order (absence of a label is no error, and
a click failure — swallowed by the per-label handler — does not stop the
iteration); a label with no button yields no error; and the button a label
probes is one whose role is `button` and whose accessible name equals the
label exactly, case-insensitively. -/
theorem C8_banners_never_abort (page : Page) :
    (_dismiss_banners page).map Prod.fst = bannerLabels
  ∧ (∀ l, bannerButtons page l = [] → dismissOne page l = none)
  ∧ (∀ l b, (bannerButtons page l).head? = some b →
      b.role = "button" ∧ lowerEq b.accName l = true) := by
  refine ⟨by rw [_dismiss_banners, List.map_map]; simp [Function.comp_def],
    ?_, ?_⟩
  · intro l hl
    simp [dismissOne, hl]
  · intro l b hb
    rcases hf : bannerButtons page l with _ | ⟨x, xs⟩ <;> rw [hf] at hb
    · simp at hb
    · have hxb : x = b := by simpa using hb
      subst hxb
      have hx : x ∈ List.filter
          (fun e => e.role == "button" && lowerEq e.accName l) page.elems := by
        rw [← bannerButtons, hf]; exact List.mem_cons_self x xs
      have hpred := (List.mem_filter.mp hx).2
      simp only [Bool.and_eq_true, beq_iff_eq] at hpred
      exact hpred

/-- Witness for C8 on the stubborn-banner page: all labels processed, and the
probed button matches "Accept All" case-insensitively. -/
theorem C8_witness :
    (_dismiss_banners bannerPage).map Prod.fst = bannerLabels
  ∧ stubbornBanner.role = "button"
  ∧ lowerEq stubbornBanner.accName "Accept All" = true :=
  ⟨(C8_banners_never_abort bannerPage).1,
   (C8_banners_never_abort bannerPage).2.2 "Accept All" stubbornBanner rfl⟩

theorem runBody_ok_shape (w : World) (q m : String)
    (h : runBody w q = .ok m) : ∃ t p, m = successMsg q t p := by
  unfold runBody at h
  repeat' split at h
  all_goals first
    | (injection h; done)
    | (injection h with h; exact ⟨_, _, h.symm⟩)

/-- C10: run never propagates an exception to its caller: for every world and
query it returns a string, and that string is one of the three single-line
messages — the success line, the timeout line, or the catch-all failure
line — and the returned string is also the line that is printed. -/
theorem C10_run_total_trichotomy (w : World) (q : String) :
    ((∃ t, (run w q).1 = "Success! First result for \"" ++ t)
      ∨ (∃ t, (run w q).1 = timeoutPrefix ++ t)
      ∨ (∃ t, (run w q).1 = runFailedPrefix ++ t))
  ∧ (run w q).2.head? = some (.printed (run w q).1) := by
  constructor
  · rcases hb : runBody w q with e | m
    · cases e with
      | pwTimeout m => exact Or.inr (Or.inl ⟨m, by simp [run, hb]⟩)
      | recoverable m => exact Or.inr (Or.inr ⟨m, by simp [run, hb, excMsg]⟩)
      | runtimeError m => exact Or.inr (Or.inr ⟨m, by simp [run, hb, excMsg]⟩)
      | otherError m => exact Or.inr (Or.inr ⟨m, by simp [run, hb, excMsg]⟩)
    · obtain ⟨t, p, hm⟩ := runBody_ok_shape w q m hb
      refine Or.inl ⟨q ++ ("\" is \"" ++ (t ++ ("\" priced at " ++ p))), ?_⟩
      simp [run, hb, hm, successMsg]
  · rcases hb : runBody w q with e | m
    · cases e <;> simp [run, hb]
    · simp [run, hb]

/-- C9: on every exit path of run — success, timeout failure, or any other
failure — the event trace run produces is the printed line followed by the
context release and the browser release: the `finally` block runs on all
three paths, so no terminal state leaves the session open. -/
theorem C9_session_released (w : World) (q : String) :
    (run w q).2 =
      [Ev.printed (run w q).1, Ev.contextClose, Ev.browserClose] := by
  rcases hb : runBody w q with e | m
  · cases e <;> simp [run, hb]
  · simp [run, hb]

/-- C7 counterexample: the run outcome is a plain string with no kind field.
A fatal interaction error and a semantic not-found failure — exceptions of
different Python classes, as the last conjunct shows — both produce a string
with the same catch-all leading tag, so a caller can separate them only by
matching the message text; the claimed three-way programmatic distinction
does not exist in the outcome. -/
theorem C7_counterexample :
    (run wFatal "shoes").1 = runFailedPrefix ++ notAttachedMsg
  ∧ (run wNoCard "shoes").1 = runFailedPrefix ++ cardNotFoundMsg
  ∧ (run wNavTimeout "shoes").1 = timeoutPrefix ++ "nav timeout"
  ∧ Exc.kind (.otherError notAttachedMsg) ≠
      Exc.kind (.runtimeError cardNotFoundMsg) :=
  ⟨rfl, rfl, rfl, by decide⟩

/-- C7 (amended): the outcome of run is a single string.  A timeout during
navigation or waiting yields the timeout prefix and every other exception —
fatal interaction errors and the semantic not-found failures alike — yields
the one catch-all prefix, so only the timeout family is distinguishable by
the leading tag; the rest differ only in the message text. -/
theorem C7_outcome_prefixes (w : World) (q : String) :
    (∀ m, runBody w q = .error (.pwTimeout m) →
      (run w q).1 = timeoutPrefix ++ m)
  ∧ (∀ e, runBody w q = .error e → Exc.kind e ≠ .pwTimeoutK →
      (run w q).1 = runFailedPrefix ++ excMsg e) := by
  constructor
  · intro m h; simp [run, h]
  · intro e h hk
    cases e with
    | pwTimeout m => exact absurd rfl hk
    | recoverable m => simp [run, h, excMsg]
    | runtimeError m => simp [run, h, excMsg]
    | otherError m => simp [run, h, excMsg]

/-- Witness for C7: the fatal-interaction world lands in the catch-all
branch. -/
theorem C7_witness :
    (run wFatal "shoes").1 =
      runFailedPrefix ++ excMsg (.otherError notAttachedMsg) :=
  (C7_outcome_prefixes wFatal "shoes").2 (.otherError notAttachedMsg) rfl
    (by decide)

/-- C1 counterexample: on the fixture whose only product title is
"Sauce Labs Backpack", the query "Nonexistent Item" matches no title, yet run
returns the Success line built from that first product card — there is no
ProductNotFound failure listing the available titles. -/
theorem C1_counterexample :
    (run fixtureWorld "Nonexistent Item").1 =
      successMsg "Nonexistent Item" "Sauce Labs Backpack" "$29.99"
  ∧ _extract_title_and_price fixtureCard = .ok ("Sauce Labs Backpack", "$29.99")
  ∧ "Sauce Labs Backpack" ≠ "Nonexistent Item" :=
  ⟨rfl, rfl, by decide⟩

/-- C1 (amended): whenever every pipeline step succeeds and the resolver
finds a card whose extraction succeeds, run returns the Success outcome built
from that first card for EVERY query — the query is never compared against
the titles, and no ProductNotFound outcome exists. -/
theorem C1_success_regardless_of_query (w : World) (q title price : String)
    (card inp : Elem)
    (hg : w.gotoResult = .ok ())
    (hs : _open_search w.searchPage = .ok inp)
    (hf : w.fillResult = .ok ()) (hp : w.pressResult = .ok ())
    (h1 : w.waitLoadResult = .ok ()) (h2 : w.waitCardResult = .ok ())
    (h3 : w.waitPriceResult = .ok ())
    (hc : _first_product_card w.resultsPage = .ok card)
    (he : _extract_title_and_price card = .ok (title, price)) :
    (run w q).1 = successMsg q title price := by
  have hb : runBody w q = .ok (successMsg q title price) := by
    simp only [runBody, hg, hs, hf, hp, h1, h2, h3, hc, he]
  simp [run, hb]

/-- Witness for C1 at the fixture world and a query matching no title. -/
theorem C1_witness :
    (run fixtureWorld "Nonexistent Item").1 =
      successMsg "Nonexistent Item" "Sauce Labs Backpack" "$29.99" :=
  C1_success_regardless_of_query fixtureWorld "Nonexistent Item"
    "Sauce Labs Backpack" "$29.99" fixtureCard searchBoxElem
    rfl rfl rfl rfl rfl rfl rfl rfl rfl
